import Mathlib

/-
Verification development for the predictive callback scheduling engine of the
nuviao-lead-manager backend.

The HTTP layer (src/server.js and related files) is embedded directly from the
source where a claim depends on it.  The core scheduling module
(smart-callback-algorithm.js, required by src/server.js via
SmartCallbackPredictor / recordCall / initializeCallback /
updatePredictionAccuracy) is not part of the available sources, so its
operations are modelled from the specification, as marked on each definition.
-/

/-- Modelled from the spec: the Outcome Taxonomy of the missing
smart-callback-algorithm module, a fixed mapping from outcome kind to a signed
desirability weight (answered=+100, appointment_booked=+150,
callback_requested=+80, voicemail=+20, busy=0, no_answer=-10,
not_interested=-50, wrong_number=-100). -/
def outcomeWeight (o : String) : Int :=
  if o = "answered" then 100
  else if o = "appointment_booked" then 150
  else if o = "callback_requested" then 80
  else if o = "voicemail" then 20
  else if o = "busy" then 0
  else if o = "no_answer" then -10
  else if o = "not_interested" then -50
  else if o = "wrong_number" then -100
  else 0

/-- Modelled from the spec: the retry-eligible outcome set of the missing
smart-callback-algorithm module (no_answer, voicemail, busy,
callback_requested). -/
def retryEligible : List String :=
  ["no_answer", "voicemail", "busy", "callback_requested"]

/-- The outcome kinds enumerated by the Outcome Taxonomy in the spec. -/
def outcomeTaxonomyKinds : List String :=
  ["answered", "appointment_booked", "callback_requested", "voicemail",
   "busy", "no_answer", "not_interested", "wrong_number"]

/-- Business-hours window; source fields start/end (end is renamed stop,
being a Lean keyword).  From the BUSINESS_HOURS constant of the calendar
module (src/unnamed/part_000, lines 9-13). -/
structure BusinessHours where
  start : Nat
  stop : Nat
deriving DecidableEq, Repr

/-- BUSINESS_HOURS = { start: 9, end: 17 } from src/unnamed/part_000. -/
def BUSINESS_HOURS : BusinessHours := { start := 9, stop := 17 }

/-- isBusinessHour from src/unnamed/part_000 lines 86-88:
hour >= start && hour < end. -/
def isBusinessHour (bh : BusinessHours) (hour : Nat) : Bool :=
  decide (bh.start ≤ hour) && decide (hour < bh.stop)

/-- Day index to weekday number; days are counted absolutely and weekday 0
and 6 stand for the weekend days. -/
def weekdayOf (d : Nat) : Nat := d % 7

/-- Whether an absolute day index falls on a weekend. -/
def isWeekendDay (d : Nat) : Bool :=
  decide (weekdayOf d = 0) || decide (weekdayOf d = 6)

/-- Modelled from the spec: the immutable ContactAttempt record of the missing
smart-callback-algorithm module.  Timestamps are absolute hours; weekday and
hour_of_day are derived from attempted_at at write time. -/
structure ContactAttempt where
  contactId : Nat
  attemptedAt : Nat
  outcome : String
  duration : Nat
  weekday : Nat
  hourOfDay : Nat
  notes : String
deriving DecidableEq, Repr

/-- Modelled from the spec: construction of a ContactAttempt, deriving weekday
and hour_of_day from the attempt timestamp (absolute hours). -/
def mkAttempt (cid : Nat) (outcome : String) (t : Nat) (dur : Nat)
    (notes : String) : ContactAttempt :=
  { contactId := cid
    attemptedAt := t
    outcome := outcome
    duration := dur
    weekday := weekdayOf (t / 24)
    hourOfDay := t % 24
    notes := notes }

/-- Modelled from the spec: an attempt counts as a successful contact when its
outcome weight is positive. -/
def isSuccessAttempt (a : ContactAttempt) : Bool :=
  decide (0 < outcomeWeight a.outcome)

/-- Modelled from the spec: success rate of a set of attempts, none when the
set is empty (absent history contributes nothing, it is not an error). -/
def successRate (l : List ContactAttempt) : Option Rat :=
  if l.isEmpty then none
  else some (((l.filter isSuccessAttempt).length : Rat) / (l.length : Rat))

/-- Modelled from the spec: Pattern Analyzer global success rate by hour of
day, across all contacts, zero when there is no data. -/
def globalHourRate (attempts : List ContactAttempt) (h : Nat) : Rat :=
  (successRate (attempts.filter (fun a => decide (a.hourOfDay = h)))).getD 0

/-- Modelled from the spec: Pattern Analyzer global success rate by weekday,
across all contacts, zero when there is no data. -/
def globalWeekdayRate (attempts : List ContactAttempt) (w : Nat) : Rat :=
  (successRate (attempts.filter (fun a => decide (a.weekday = w)))).getD 0

/-- Modelled from the spec: Pattern Analyzer personal success rate by hour for
one contact, none when that contact has no attempts at that hour. -/
def personalHourRate (attempts : List ContactAttempt) (cid h : Nat) :
    Option Rat :=
  successRate (attempts.filter
    (fun a => decide (a.contactId = cid) && decide (a.hourOfDay = h)))

/-- Modelled from the spec: number of attempts recorded for the contact in the
24 hours preceding the scoring time (both in absolute hours). -/
def recentAttemptCount (attempts : List ContactAttempt) (cid now : Nat) :
    Nat :=
  (attempts.filter (fun a => decide (a.contactId = cid) &&
    decide (now < a.attemptedAt + 24) && decide (a.attemptedAt ≤ now))).length

/-- Modelled from the spec: the static heuristic profile attached to a
calling-pattern segment (preferred hours, avoided hours, weekend
multiplier). -/
structure SegmentProfile where
  preferredHours : List Nat
  avoidedHours : List Nat
  weekendMultiplier : Rat
deriving DecidableEq, Repr

/-- Iterated multiplication on rationals, used for the compounding recency
penalty of the scorer. -/
def ratPow (x : Rat) : Nat → Rat
  | 0 => 1
  | n + 1 => x * ratPow x n

/-- Modelled from the spec: final clamp of a score to the interval
[0, 100]. -/
def clampScore (x : Rat) : Rat :=
  if x < 0 then 0 else if 100 < x then 100 else x

/-- Modelled from the spec: Time-Slot Scorer pipeline before the final clamp,
in the specified order: base 50; +20 preferred hour and -15 avoided hour;
weekend multiplier; personal-history term (rate times 30, zero when absent);
global terms (hour rate times 15, weekday rate times 10); times 0.3 outside
business hours; times 0.8 for each attempt in the preceding 24 hours. -/
def rawTimeScore (seg : SegmentProfile) (h : Nat) (wkend : Bool)
    (personal : Option Rat) (gH gW : Rat) (inBH : Bool) (recent : Nat) :
    Rat :=
  let s1 : Rat := 50
  let s2 := s1 + (if h ∈ seg.preferredHours then (20 : Rat) else 0)
               + (if h ∈ seg.avoidedHours then (-15 : Rat) else 0)
  let s3 := if wkend then s2 * seg.weekendMultiplier else s2
  let s4 := s3 + (match personal with
                  | some r => r * 30
                  | none => 0)
  let s5 := s4 + gH * 15 + gW * 10
  let s6 := if inBH then s5 else s5 * (3 / 10)
  s6 * ratPow (4 / 5) recent

/-- Modelled from the spec: Time-Slot Scorer, the raw pipeline followed by the
clamp to [0, 100]. -/
def calculateTimeScore (seg : SegmentProfile) (h : Nat) (wkend : Bool)
    (personal : Option Rat) (gH gW : Rat) (inBH : Bool) (recent : Nat) :
    Rat :=
  clampScore (rawTimeScore seg h wkend personal gH gW inBH recent)

/-- Confidence levels of a ScheduledCallback. -/
inductive Confidence
  | high
  | medium
  | low
  | veryLow
deriving DecidableEq, Repr

/-- Modelled from the spec: confidence as a pure function of predicted_score
(at least 80 high, at least 60 medium, at least 40 low, else very_low). -/
def getConfidence (s : Rat) : Confidence :=
  if 80 ≤ s then .high
  else if 60 ≤ s then .medium
  else if 40 ≤ s then .low
  else .veryLow

/-- A scored candidate time slot (absolute day index, hour of day, score). -/
structure Slot where
  day : Nat
  hour : Nat
  score : Rat
deriving DecidableEq, Repr

/-- Stable descending insertion by score: a slot goes in front of the first
slot whose score does not exceed it, so equal scores keep generation order. -/
def insertSlotDesc (s : Slot) : List Slot → List Slot
  | [] => [s]
  | t :: ts => if t.score ≤ s.score then s :: t :: ts else t :: insertSlotDesc s ts

/-- Modelled from the spec: sort the candidates of a day by score descending,
stable, so that equal scores preserve candidate generation order. -/
def sortSlotsDesc : List Slot → List Slot
  | [] => []
  | s :: ss => insertSlotDesc s (sortSlotsDesc ss)

/-- The whole hours of the business window, earliest first. -/
def businessHoursList (bh : BusinessHours) : List Nat :=
  (List.range (bh.stop - bh.start)).map (fun i => bh.start + i)

/-- Modelled from the spec: candidate hours of one day of the horizon; the
current day is skipped once its window has closed, and on the current day
hours already in the past are skipped. -/
def candidateHours (bh : BusinessHours) (today curHour d : Nat) : List Nat :=
  if d = today ∧ bh.stop ≤ curHour then []
  else (businessHoursList bh).filter
    (fun h => decide (d ≠ today) || decide (curHour < h))

/-- Modelled from the spec: score one candidate slot through the Time-Slot
Scorer, feeding it the segment profile, the Pattern Analyzer aggregates and
the recency count at the time of prediction. -/
def scoreSlot (attempts : List ContactAttempt) (seg : SegmentProfile)
    (cid : Nat) (bh : BusinessHours) (now d h : Nat) : Slot :=
  { day := d
    hour := h
    score := calculateTimeScore seg h (isWeekendDay d)
      (personalHourRate attempts cid h) (globalHourRate attempts h)
      (globalWeekdayRate attempts (weekdayOf d)) (isBusinessHour bh h)
      (recentAttemptCount attempts cid now) }

/-- One prediction bundle of the Optimal-Time Predictor: a day, its top slots
and its full ranked candidate list. -/
structure DayPrediction where
  day : Nat
  topSlots : List Slot
  allSlots : List Slot
deriving DecidableEq, Repr

/-- Modelled from the spec: the per-day step of the Optimal-Time Predictor:
generate the candidate hours of the day, score them, rank them descending and
keep the top 3 as top slots. -/
def predictDay (attempts : List ContactAttempt) (seg : SegmentProfile)
    (cid : Nat) (bh : BusinessHours) (today curHour d : Nat) :
    DayPrediction :=
  let slots := (candidateHours bh today curHour d).map
    (scoreSlot attempts seg cid bh (today * 24 + curHour) d)
  let sorted := sortSlotsDesc slots
  { day := d
    topSlots := sorted.take 3
    allSlots := sorted }

/-- Modelled from the spec: predictOptimalCallTimes of the missing
smart-callback-algorithm module, one prediction bundle per day of the
horizon. -/
def predictOptimalCallTimes (attempts : List ContactAttempt)
    (seg : SegmentProfile) (cid : Nat) (bh : BusinessHours)
    (today curHour horizon : Nat) : List DayPrediction :=
  (List.range horizon).map
    (fun i => predictDay attempts seg cid bh today curHour (today + i))

/-- Modelled from the spec: a ScheduledCallback row; scheduled_time is the
pair of the day index and the hour of day. -/
structure ScheduledCallback where
  contactId : Nat
  day : Nat
  hour : Nat
  predictedScore : Rat
  confidence : Confidence
  status : String
  actualOutcome : Option String
  actualScore : Option Rat
  predictionAccuracy : Option Rat
  completedAt : Option Nat
deriving DecidableEq, Repr

/-- Modelled from the spec: creation of a ScheduledCallback from a scored
slot, with status scheduled and the completion fields unset. -/
def mkScheduledCallback (cid : Nat) (s : Slot) : ScheduledCallback :=
  { contactId := cid
    day := s.day
    hour := s.hour
    predictedScore := s.score
    confidence := getConfidence s.score
    status := "scheduled"
    actualOutcome := none
    actualScore := none
    predictionAccuracy := none
    completedAt := none }

/-- Modelled from the spec: the Callback Scheduler of the missing
smart-callback-algorithm module: per prediction bundle, take the first
max-per-day top slots, drop those below the minimum floor of 30, and persist
the rest with status scheduled. -/
def scheduleCallbacks (attempts : List ContactAttempt) (seg : SegmentProfile)
    (cid : Nat) (bh : BusinessHours) (today curHour maxPerDay horizon : Nat) :
    List ScheduledCallback :=
  (predictOptimalCallTimes attempts seg cid bh today curHour horizon).flatMap
    (fun dp => ((dp.topSlots.take maxPerDay).filter
        (fun s => decide ((30 : Rat) ≤ s.score))).map (mkScheduledCallback cid))

/-- Storage failure of the History Repository, as in the error model of the
spec. -/
inductive StorageError
  | writeFailed
deriving DecidableEq, Repr

/-- Modelled from the spec: the History Repository state, with a fault flag
standing for an injected repository write failure. -/
structure HistoryStore where
  attempts : List ContactAttempt
  callbacks : List ScheduledCallback
  failWrites : Bool
deriving DecidableEq, Repr

/-- Modelled from the spec: insert_attempt of the History Repository; it
either appends the record (newest first) or reports a StorageError. -/
def insertAttempt (st : HistoryStore) (a : ContactAttempt) :
    Except StorageError HistoryStore :=
  if st.failWrites then .error .writeFailed
  else .ok { st with attempts := a :: st.attempts }

/-- Modelled from the spec: record_attempt (recordCall of the missing
smart-callback-algorithm module), the single mandatory write path; a
persistence failure is passed to the caller, never swallowed. -/
def recordAttempt (st : HistoryStore) (cid : Nat) (outcome : String)
    (t dur : Nat) (notes : String) : Except StorageError HistoryStore :=
  insertAttempt st (mkAttempt cid outcome t dur notes)

/-- Modelled from the spec: insert_scheduled_callback iterated over the rows
the Callback Scheduler decided to persist. -/
def insertCallbacks (st : HistoryStore) (cbs : List ScheduledCallback) :
    Except StorageError HistoryStore :=
  if st.failWrites then .error .writeFailed
  else .ok { st with callbacks := st.callbacks ++ cbs }

/-- Modelled from the spec: process_for_callbacks (initializeCallback of the
missing smart-callback-algorithm module): record the attempt, then invoke the
Callback Scheduler only when the outcome is retry-eligible; other outcomes
create no callbacks.  Storage failures propagate. -/
def processForCallbacks (st : HistoryStore) (seg : SegmentProfile)
    (cid : Nat) (outcome : String) (bh : BusinessHours)
    (today curHour maxPerDay horizon dur : Nat) (notes : String) :
    Except StorageError (HistoryStore × List ScheduledCallback) :=
  match recordAttempt st cid outcome (today * 24 + curHour) dur notes with
  | .error e => .error e
  | .ok st1 =>
    if outcome ∈ retryEligible then
      let cbs := scheduleCallbacks st1.attempts seg cid bh today curHour
        maxPerDay horizon
      match insertCallbacks st1 cbs with
      | .error e => .error e
      | .ok st2 => .ok (st2, cbs)
    else .ok (st1, [])

/-- Absolute value on rationals, written executably. -/
def absQ (x : Rat) : Rat := if x < 0 then -x else x

/-- Clamp of an integer to [lo, hi], written executably. -/
def clampInt (lo hi x : Int) : Int :=
  if x < lo then lo else if hi < x then hi else x

/-- Modelled from the spec: the recentered actual score of an outcome,
clamp(outcome_weight + 50, 0, 100). -/
def actualScoreOf (o : String) : Int := clampInt 0 100 (outcomeWeight o + 50)

/-- Modelled from the spec: reconcile (updatePredictionAccuracy of the missing
smart-callback-algorithm module): recenter the actual outcome onto the 0-100
scale, compute accuracy = 100 - the absolute prediction error, and complete
the record.  Returns the updated row and the accuracy. -/
def updatePredictionAccuracy (cb : ScheduledCallback) (o : String)
    (now : Nat) : ScheduledCallback × Rat :=
  let a : Rat := ((actualScoreOf o : Int) : Rat)
  let acc := 100 - absQ (cb.predictedScore - a)
  ({ cb with
      status := "completed"
      actualOutcome := some o
      actualScore := some a
      predictionAccuracy := some acc
      completedAt := some now }, acc)

/-- A row of the callback_queue table as touched by the
update-callback-outcome webhook handler of src/server.js. -/
structure CallbackRow where
  id : Nat
  status : String
  actualOutcome : Option String
  retellCallId : Option String
  completedAt : Option Nat
  predictedScore : Rat
deriving DecidableEq, Repr

/-- The database update of src/server.js lines 434-443: set status completed,
actual_outcome, retell_call_id and completed_at on every row whose id matches,
with no condition on the current status. -/
def updateCallbackOutcome (rows : List CallbackRow) (callbackId : Nat)
    (actualOutcome : String) (retellCallId : Option String) (now : Nat) :
    List CallbackRow :=
  rows.map (fun r =>
    if r.id = callbackId then
      { r with
         status := "completed"
         actualOutcome := some actualOutcome
         retellCallId := retellCallId
         completedAt := some now }
    else r)

/-- Response of the update-callback-outcome handler of src/server.js: when the
store reports no error the handler answers success, with no conflict case. -/
structure UpdateOutcomeResponse where
  success : Bool
  message : String
deriving DecidableEq, Repr

/-- The POST /webhook/update-callback-outcome/bestbuyremodel handler of
src/server.js (lines 418-460), restricted to its persistent effect: it
performs the unconditional update and reports success. -/
def updateCallbackOutcomeHandler (rows : List CallbackRow) (callbackId : Nat)
    (actualOutcome : String) (retellCallId : Option String) (now : Nat) :
    UpdateOutcomeResponse × List CallbackRow :=
  ({ success := true, message := "Callback outcome updated successfully" },
   updateCallbackOutcome rows callbackId actualOutcome retellCallId now)

/-- Whether pat occurs as a contiguous run inside the character list,
mirroring the JavaScript String.includes used by the webhook. -/
def subAux (pat : List Char) : List Char → Bool
  | [] => pat.isEmpty
  | c :: cs => pat.isPrefixOf (c :: cs) || subAux pat cs

/-- String containment test mirroring JavaScript String.includes. -/
def containsSub (s pat : String) : Bool := subAux pat.toList s.toList

/-- ASCII lowercasing mirroring JavaScript toLowerCase on the keyword
alphabet, written executably over the character list. -/
def lowerStr (s : String) : String := String.mk (s.data.map Char.toLower)

/-- The outcome classification of the Retell call_ended webhook,
src/server.js lines 1347-1358: default no_answer when the summary is absent
(or empty, which JavaScript treats as falsy), then keyword groups for booked
and dead, and follow_up otherwise. -/
def classifyOutcome (summary : Option String) : String :=
  match summary with
  | none => "no_answer"
  | some s =>
    if s = "" then "no_answer"
    else
      let t := lowerStr s
      if containsSub t "appointment" || containsSub t "scheduled" ||
         containsSub t "booked" then "booked"
      else if containsSub t "not interested" ||
              containsSub t "no thank you" then "dead"
      else if containsSub t "call back" || containsSub t "later" then
        "follow_up"
      else "follow_up"

/-- Segment profile used by the concrete evaluations below: no preferred or
avoided hours and a neutral weekend multiplier. -/
def segW : SegmentProfile :=
  { preferredHours := [], avoidedHours := [], weekendMultiplier := 1 }

/-- Segment profile with nontrivial fields, used by the concrete recency
evaluation. -/
def segW8 : SegmentProfile :=
  { preferredHours := [9], avoidedHours := [14], weekendMultiplier := 11 / 10 }

/-- Concrete history store with no rows and a healthy repository. -/
def hsW : HistoryStore := { attempts := [], callbacks := [], failWrites := false }

/-- The store hsW after recording a not_interested attempt at day 2 hour 0. -/
def hsW1 : HistoryStore :=
  { attempts := [mkAttempt 1 "not_interested" 48 0 ""]
    callbacks := []
    failWrites := false }

/-- Concrete history store whose repository rejects writes. -/
def hsF : HistoryStore := { attempts := [], callbacks := [], failWrites := true }

/-- Concrete scheduled callback with predicted score 50 at day 2 hour 9. -/
def cbW3 : ScheduledCallback :=
  mkScheduledCallback 1 { day := 2, hour := 9, score := 50 }

/-- Concrete scheduled callback with predicted score 50 at day 2 hour 10. -/
def cbW9 : ScheduledCallback :=
  mkScheduledCallback 1 { day := 2, hour := 10, score := 50 }

/-- Concrete scheduled callback with predicted score 70. -/
def cbW5 : ScheduledCallback :=
  mkScheduledCallback 1 { day := 2, hour := 9, score := 70 }

/-- Concrete callback_queue row that is already completed. -/
def completedRowW : CallbackRow :=
  { id := 1
    status := "completed"
    actualOutcome := some "answered"
    retellCallId := none
    completedAt := some 3
    predictedScore := 70 }

/-- The row completedRowW as overwritten by a second completion with outcome
no_answer at time 5. -/
def overwrittenRowW : CallbackRow :=
  { id := 1
    status := "completed"
    actualOutcome := some "no_answer"
    retellCallId := none
    completedAt := some 5
    predictedScore := 70 }

theorem clampScore_nonneg (x : Rat) : 0 ≤ clampScore x := by
  unfold clampScore
  split_ifs with h1 h2
  · exact le_refl 0
  · norm_num
  · linarith [not_lt.mp h1]

theorem clampScore_le_100 (x : Rat) : clampScore x ≤ 100 := by
  unfold clampScore
  split_ifs with h1 h2
  · norm_num
  · exact le_refl 100
  · linarith [not_lt.mp h2]

theorem mem_insertSlotDesc {a s : Slot} {l : List Slot} :
    a ∈ insertSlotDesc s l → a = s ∨ a ∈ l := by
  induction l with
  | nil =>
    intro h
    simp only [insertSlotDesc, List.mem_singleton] at h
    exact .inl h
  | cons t ts ih =>
    intro h
    simp only [insertSlotDesc] at h
    split at h
    · rcases List.mem_cons.mp h with h1 | h1
      · exact .inl h1
      · exact .inr h1
    · rcases List.mem_cons.mp h with h1 | h1
      · exact .inr (List.mem_cons.mpr (.inl h1))
      · rcases ih h1 with h2 | h2
        · exact .inl h2
        · exact .inr (List.mem_cons.mpr (.inr h2))

theorem mem_sortSlotsDesc {a : Slot} {l : List Slot} :
    a ∈ sortSlotsDesc l → a ∈ l := by
  induction l with
  | nil =>
    intro h
    simp only [sortSlotsDesc] at h
    exact h
  | cons t ts ih =>
    intro h
    simp only [sortSlotsDesc] at h
    rcases mem_insertSlotDesc h with h1 | h1
    · subst h1
      exact List.mem_cons_self _ _
    · exact List.mem_cons.mpr (.inr (ih h1))

theorem mem_businessHoursList {bh : BusinessHours} {h : Nat}
    (hm : h ∈ businessHoursList bh) : bh.start ≤ h ∧ h < bh.stop := by
  unfold businessHoursList at hm
  rcases List.mem_map.mp hm with ⟨i, hi, rfl⟩
  have := List.mem_range.mp hi
  omega

theorem mem_candidateHours {bh : BusinessHours} {today cur d h : Nat}
    (hm : h ∈ candidateHours bh today cur d) : bh.start ≤ h ∧ h < bh.stop := by
  unfold candidateHours at hm
  split at hm
  · cases hm
  · exact mem_businessHoursList (List.mem_filter.mp hm).1

theorem mem_scheduleCallbacks_facts {attempts : List ContactAttempt}
    {seg : SegmentProfile} {cid : Nat} {bh : BusinessHours}
    {today cur mpd hz : Nat} {cb : ScheduledCallback}
    (hm : cb ∈ scheduleCallbacks attempts seg cid bh today cur mpd hz) :
    30 ≤ cb.predictedScore ∧ 0 ≤ cb.predictedScore ∧
    cb.predictedScore ≤ 100 ∧ bh.start ≤ cb.hour ∧ cb.hour < bh.stop ∧
    cb.status = "scheduled" ∧
    cb.confidence = getConfidence cb.predictedScore ∧ cb.contactId = cid := by
  unfold scheduleCallbacks at hm
  rcases List.mem_flatMap.mp hm with ⟨dp, hdp, hcb⟩
  rcases List.mem_map.mp hcb with ⟨s, hs, rfl⟩
  rcases List.mem_filter.mp hs with ⟨htake, hsc⟩
  have hsc2 : (30 : Rat) ≤ s.score := of_decide_eq_true hsc
  have htop : s ∈ dp.topSlots := List.mem_of_mem_take htake
  unfold predictOptimalCallTimes at hdp
  rcases List.mem_map.mp hdp with ⟨i, hi, rfl⟩
  simp only [predictDay] at htop
  have hslots := mem_sortSlotsDesc (List.mem_of_mem_take htop)
  rcases List.mem_map.mp hslots with ⟨hr, hh, rfl⟩
  have hhb := mem_candidateHours hh
  exact ⟨hsc2, clampScore_nonneg _, clampScore_le_100 _, hhb.1, hhb.2,
    rfl, rfl, rfl⟩

/-- C2: the Time-Slot Scorer computes the score of a candidate by exactly the
specified steps in the specified order: base 50, plus 20 for a preferred hour
and minus 15 for an avoided hour, the weekend multiplier, the personal term
(rate times 30, zero when absent), the global terms (hour rate times 15 and
weekday rate times 10), the times-0.3 outside-business-hours penalty, the
times-0.8 per recent attempt penalty, and a final clamp to [0, 100], so every
predicted score lies between 0 and 100. -/
theorem c2_scorer_pipeline (seg : SegmentProfile) (h : Nat) (wkend : Bool)
    (personal : Option Rat) (gH gW : Rat) (inBH : Bool) (recent : Nat) :
    calculateTimeScore seg h wkend personal gH gW inBH recent =
      clampScore
        ((((if wkend then
              (50 + (if h ∈ seg.preferredHours then (20 : Rat) else 0) +
                (if h ∈ seg.avoidedHours then (-15 : Rat) else 0)) *
                seg.weekendMultiplier
            else
              50 + (if h ∈ seg.preferredHours then (20 : Rat) else 0) +
                (if h ∈ seg.avoidedHours then (-15 : Rat) else 0)) +
           (match personal with
            | some r => r * 30
            | none => 0) +
           gH * 15 + gW * 10) *
          (if inBH then 1 else 3 / 10)) * ratPow (4 / 5) recent) ∧
    0 ≤ calculateTimeScore seg h wkend personal gH gW inBH recent ∧
    calculateTimeScore seg h wkend personal gH gW inBH recent ≤ 100 := by
  refine ⟨?_, clampScore_nonneg _, clampScore_le_100 _⟩
  simp only [calculateTimeScore, rawTimeScore]
  congr 1
  cases personal <;> split_ifs <;> ring

/-- C3: every ScheduledCallback persisted by the Callback Scheduler has a
predicted score of at least the minimum floor of 30; a candidate scored 29
never yields a stored row. -/
theorem c3_minimum_floor_invariant (attempts : List ContactAttempt)
    (seg : SegmentProfile) (cid : Nat) (bh : BusinessHours)
    (today cur mpd hz : Nat) (cb : ScheduledCallback)
    (hm : cb ∈ scheduleCallbacks attempts seg cid bh today cur mpd hz) :
    30 ≤ cb.predictedScore ∧ cb.predictedScore ≠ 29 := by
  have hf := mem_scheduleCallbacks_facts hm
  refine ⟨hf.1, ?_⟩
  intro he
  rw [he] at hf
  have := hf.1
  norm_num at this

/-- C3 witness: a concrete run of the scheduler produces a row, and the
theorem yields its floor bound. -/
theorem c3_minimum_floor_invariant_witness :
    cbW3 ∈ scheduleCallbacks [] segW 1 BUSINESS_HOURS 2 0 2 1 ∧
    30 ≤ cbW3.predictedScore :=
  ⟨by with_unfolding_all decide,
   (c3_minimum_floor_invariant [] segW 1 BUSINESS_HOURS 2 0 2 1 cbW3
     (by with_unfolding_all decide)).1⟩

/-- C9: with the configured BUSINESS_HOURS window 09:00 to 17:00, every
ScheduledCallback persisted by the Callback Scheduler has a scheduled hour in
the interval [9, 17). -/
theorem c9_business_hours_invariant (attempts : List ContactAttempt)
    (seg : SegmentProfile) (cid : Nat) (today cur mpd hz : Nat)
    (cb : ScheduledCallback)
    (hm : cb ∈ scheduleCallbacks attempts seg cid BUSINESS_HOURS today cur
      mpd hz) :
    9 ≤ cb.hour ∧ cb.hour < 17 := by
  have hf := mem_scheduleCallbacks_facts hm
  exact ⟨hf.2.2.2.1, hf.2.2.2.2.1⟩

/-- C9 witness: a concrete run of the scheduler produces a row, and the
theorem puts its hour inside the business window. -/
theorem c9_business_hours_invariant_witness :
    cbW9 ∈ scheduleCallbacks [] segW 1 BUSINESS_HOURS 2 0 2 1 ∧
    9 ≤ cbW9.hour ∧ cbW9.hour < 17 :=
  ⟨by with_unfolding_all decide,
   c9_business_hours_invariant [] segW 1 2 0 2 1 cbW9
     (by with_unfolding_all decide)⟩

/-- C4: confidence is a pure function of predicted score with thresholds 80,
60 and 40 (score 80 high, 79 medium, 40 low, 39 very low), and every
ScheduledCallback created by the scheduler carries exactly that function of
its own predicted score. -/
theorem c4_confidence_thresholds :
    (∀ s : Rat,
      (80 ≤ s → getConfidence s = .high) ∧
      (60 ≤ s → s < 80 → getConfidence s = .medium) ∧
      (40 ≤ s → s < 60 → getConfidence s = .low) ∧
      (s < 40 → getConfidence s = .veryLow)) ∧
    getConfidence 80 = .high ∧ getConfidence 79 = .medium ∧
    getConfidence 40 = .low ∧ getConfidence 39 = .veryLow ∧
    ∀ (attempts : List ContactAttempt) (seg : SegmentProfile) (cid : Nat)
      (bh : BusinessHours) (today cur mpd hz : Nat) (cb : ScheduledCallback),
      cb ∈ scheduleCallbacks attempts seg cid bh today cur mpd hz →
      cb.confidence = getConfidence cb.predictedScore := by
  refine ⟨?_, by decide, by decide, by decide, by decide, ?_⟩
  · intro s
    unfold getConfidence
    refine ⟨?_, ?_, ?_, ?_⟩ <;> intros <;> split_ifs <;>
      first
      | rfl
      | linarith
  · intro attempts seg cid bh today cur mpd hz cb hm
    exact (mem_scheduleCallbacks_facts hm).2.2.2.2.2.2.1

/-- C4 witness: the thresholds applied at score 85, and at a concrete row of
a scheduler run. -/
theorem c4_confidence_thresholds_witness :
    (80 : Rat) ≤ 85 ∧ getConfidence 85 = .high ∧
    cbW3.confidence = getConfidence cbW3.predictedScore :=
  ⟨by decide, (c4_confidence_thresholds.1 85).1 (by decide),
   c4_confidence_thresholds.2.2.2.2.2 [] segW 1 BUSINESS_HOURS 2 0 2 1 cbW3
     (by with_unfolding_all decide)⟩

/-- C8: for otherwise-identical inputs, the raw (pre-clamp) score computed
with 3 attempts in the preceding 24 hours equals the unpenalized raw score
times 0.8 cubed, and under the natural sign conditions on the configuration
(positive weekend multiplier, nonnegative success rates) it is strictly
lower. -/
theorem c8_recency_penalty (seg : SegmentProfile) (h : Nat) (wkend : Bool)
    (personal : Option Rat) (gH gW : Rat) (inBH : Bool)
    (hw : 0 < seg.weekendMultiplier)
    (hp : ∀ r, personal = some r → 0 ≤ r)
    (hgH : 0 ≤ gH) (hgW : 0 ≤ gW) :
    rawTimeScore seg h wkend personal gH gW inBH 3 =
      rawTimeScore seg h wkend personal gH gW inBH 0 * ratPow (4 / 5) 3 ∧
    rawTimeScore seg h wkend personal gH gW inBH 3 <
      rawTimeScore seg h wkend personal gH gW inBH 0 := by
  have hpos : 0 < rawTimeScore seg h wkend personal gH gW inBH 0 := by
    cases personal with
    | none =>
      simp only [rawTimeScore, ratPow]
      split_ifs <;> nlinarith
    | some r =>
      have h0 := hp r rfl
      simp only [rawTimeScore, ratPow]
      split_ifs <;> nlinarith
  have heq : rawTimeScore seg h wkend personal gH gW inBH 3 =
      rawTimeScore seg h wkend personal gH gW inBH 0 * ratPow (4 / 5) 3 := by
    simp only [rawTimeScore, ratPow]
    ring
  refine ⟨heq, ?_⟩
  rw [heq]
  have hlt : ratPow (4 / 5) 3 < 1 := by
    simp only [ratPow]
    norm_num
  nlinarith

/-- C8 witness: the strict decrease at a concrete segment profile, personal
rate and global rates. -/
theorem c8_recency_penalty_witness :
    (0 : Rat) < segW8.weekendMultiplier ∧
    rawTimeScore segW8 10 false (some (1 / 2)) (1 / 4) (1 / 3) true 3 <
      rawTimeScore segW8 10 false (some (1 / 2)) (1 / 4) (1 / 3) true 0 :=
  ⟨by with_unfolding_all decide,
   (c8_recency_penalty segW8 10 false (some (1 / 2)) (1 / 4) (1 / 3) true
     (by with_unfolding_all decide)
     (fun r hr => by cases hr; with_unfolding_all decide)
     (by with_unfolding_all decide) (by with_unfolding_all decide)).2⟩

/-- C1: process_for_callbacks records the attempt and invokes the Callback
Scheduler exactly when the outcome is retry-eligible (no_answer, voicemail,
busy, callback_requested); in particular not_interested creates no
ScheduledCallback rows, regardless of the stored history. -/
theorem c1_retry_eligibility (st : HistoryStore) (seg : SegmentProfile)
    (cid : Nat) (outcome : String) (bh : BusinessHours)
    (today cur mpd hz dur : Nat) (notes : String) :
    (∀ st1 cbs,
      processForCallbacks st seg cid outcome bh today cur mpd hz dur notes =
        .ok (st1, cbs) →
      (cbs ≠ [] → outcome ∈ retryEligible) ∧
      (outcome ∈ retryEligible →
        cbs = scheduleCallbacks
          (mkAttempt cid outcome (today * 24 + cur) dur notes :: st.attempts)
          seg cid bh today cur mpd hz ∧
        st1.callbacks = st.callbacks ++ cbs) ∧
      (outcome ∉ retryEligible → cbs = [] ∧ st1.callbacks = st.callbacks)) ∧
    (∀ st1 cbs,
      processForCallbacks st seg cid "not_interested" bh today cur mpd hz dur
          notes = .ok (st1, cbs) →
      cbs = [] ∧ st1.callbacks = st.callbacks) := by
  have hgen : ∀ (o : String) st1 cbs,
      processForCallbacks st seg cid o bh today cur mpd hz dur notes =
        .ok (st1, cbs) →
      (cbs ≠ [] → o ∈ retryEligible) ∧
      (o ∈ retryEligible →
        cbs = scheduleCallbacks
          (mkAttempt cid o (today * 24 + cur) dur notes :: st.attempts)
          seg cid bh today cur mpd hz ∧
        st1.callbacks = st.callbacks ++ cbs) ∧
      (o ∉ retryEligible → cbs = [] ∧ st1.callbacks = st.callbacks) := by
    intro o st1 cbs hok
    by_cases hf : st.failWrites
    · simp [processForCallbacks, recordAttempt, insertAttempt, hf] at hok
    · by_cases he : o ∈ retryEligible
      · simp [processForCallbacks, recordAttempt, insertAttempt,
          insertCallbacks, hf, he] at hok
        obtain ⟨h1, h2⟩ := hok
        refine ⟨fun _ => he, fun _ => ⟨h2.symm, ?_⟩, fun hne => absurd he hne⟩
        rw [← h1]
        simp [h2]
      · simp [processForCallbacks, recordAttempt, insertAttempt, hf, he]
          at hok
        obtain ⟨h1, h2⟩ := hok
        refine ⟨fun hne => absurd h2 hne, fun hin => absurd hin he,
          fun _ => ⟨h2, ?_⟩⟩
        rw [← h1]
  refine ⟨hgen outcome, ?_⟩
  intro st1 cbs hok
  have hni : "not_interested" ∉ retryEligible := by decide
  exact ((hgen "not_interested" st1 cbs hok).2.2) hni

/-- C1 witness: a concrete not_interested run returns success with zero
callbacks created and an unchanged callback table. -/
theorem c1_retry_eligibility_witness :
    processForCallbacks hsW segW 1 "not_interested" BUSINESS_HOURS 2 0 2 1 0
        "" = .ok (hsW1, []) ∧
    ([] : List ScheduledCallback) = [] ∧ hsW1.callbacks = hsW.callbacks :=
  ⟨by with_unfolding_all rfl,
   (c1_retry_eligibility hsW segW 1 "not_interested" BUSINESS_HOURS 2 0 2 1 0
     "").2 hsW1 [] (by with_unfolding_all rfl)⟩

/-- C7: record_attempt, the single mandatory write path, either appends the
ContactAttempt (healthy repository) or surfaces the StorageError to the
caller; a persistence failure is never swallowed. -/
theorem c7_record_attempt_propagation (st : HistoryStore) (cid : Nat)
    (outcome : String) (t dur : Nat) (notes : String) :
    (st.failWrites = false →
      recordAttempt st cid outcome t dur notes =
        .ok { st with
               attempts := mkAttempt cid outcome t dur notes ::
                 st.attempts }) ∧
    (st.failWrites = true →
      recordAttempt st cid outcome t dur notes = .error .writeFailed) := by
  constructor <;> intro hf <;> simp [recordAttempt, insertAttempt, hf]

/-- C7 witness: on a store whose repository rejects writes, record_attempt
reports the StorageError. -/
theorem c7_record_attempt_propagation_witness :
    hsF.failWrites = true ∧
    recordAttempt hsF 1 "no_answer" 5 0 "" = .error .writeFailed :=
  ⟨rfl, (c7_record_attempt_propagation hsF 1 "no_answer" 5 0 "").2 rfl⟩

/-- C5: reconciliation computes actual_score = clamp(weight + 50, 0, 100) and
prediction_accuracy = 100 minus the absolute difference with the predicted
score; with predicted score 70 it reports 100 against a recentered 70
(voicemail) and 70 against a recentered 40 (no_answer). -/
theorem c5_reconcile_accuracy (cb : ScheduledCallback) (o : String)
    (now : Nat) :
    ((updatePredictionAccuracy cb o now).2 =
        100 - absQ (cb.predictedScore - ((actualScoreOf o : Int) : Rat)) ∧
      actualScoreOf o = clampInt 0 100 (outcomeWeight o + 50) ∧
      (updatePredictionAccuracy cb o now).1.predictionAccuracy =
        some ((updatePredictionAccuracy cb o now).2) ∧
      (updatePredictionAccuracy cb o now).1.status = "completed") ∧
    (cb.predictedScore = 70 →
      (updatePredictionAccuracy cb "voicemail" now).2 = 100 ∧
      (updatePredictionAccuracy cb "no_answer" now).2 = 70) := by
  refine ⟨⟨rfl, rfl, rfl, rfl⟩, ?_⟩
  intro h70
  constructor
  · have he : (updatePredictionAccuracy cb "voicemail" now).2 =
        100 - absQ (cb.predictedScore -
          ((actualScoreOf "voicemail" : Int) : Rat)) := rfl
    rw [he, h70]
    with_unfolding_all decide
  · have he : (updatePredictionAccuracy cb "no_answer" now).2 =
        100 - absQ (cb.predictedScore -
          ((actualScoreOf "no_answer" : Int) : Rat)) := rfl
    rw [he, h70]
    with_unfolding_all decide

/-- C5 witness: the two accuracy examples at a concrete row with predicted
score 70. -/
theorem c5_reconcile_accuracy_witness :
    cbW5.predictedScore = 70 ∧
    (updatePredictionAccuracy cbW5 "voicemail" 0).2 = 100 ∧
    (updatePredictionAccuracy cbW5 "no_answer" 0).2 = 70 :=
  ⟨by with_unfolding_all rfl,
   ((c5_reconcile_accuracy cbW5 "voicemail" 0).2
     (by with_unfolding_all rfl)).1,
   ((c5_reconcile_accuracy cbW5 "voicemail" 0).2
     (by with_unfolding_all rfl)).2⟩

/-- C6 counterexample: completing an already-completed callback_queue row via
the update-callback-outcome handler does not produce a Conflict error; the
handler reports success and the row is overwritten, so it does not stay
unchanged. -/
theorem c6_counterexample_double_completion :
    (updateCallbackOutcomeHandler [completedRowW] 1 "no_answer" none
        5).1.success = true ∧
    (updateCallbackOutcomeHandler [completedRowW] 1 "no_answer" none 5).2 =
      [overwrittenRowW] ∧
    (updateCallbackOutcomeHandler [completedRowW] 1 "no_answer" none 5).2 ≠
      [completedRowW] := by
  with_unfolding_all decide

/-- C6 amended: the completion performed by the update-callback-outcome
handler is an unconditional update by id with no optimistic status check: it
always reports success, keeps the row count, and overwrites status,
actual_outcome, retell_call_id and completed_at of every matching row whatever
its current status, so a second completion of the same row succeeds and
overwrites it instead of returning a Conflict. -/
theorem c6_unconditional_completion (rows : List CallbackRow)
    (callbackId : Nat) (o : String) (rc : Option String) (now : Nat) :
    (updateCallbackOutcomeHandler rows callbackId o rc now).1.success =
      true ∧
    (updateCallbackOutcomeHandler rows callbackId o rc now).2.length =
      rows.length ∧
    ∀ r ∈ rows, r.id = callbackId →
      { r with
         status := "completed"
         actualOutcome := some o
         retellCallId := rc
         completedAt := some now } ∈
        (updateCallbackOutcomeHandler rows callbackId o rc now).2 := by
  refine ⟨rfl, ?_, ?_⟩
  · simp [updateCallbackOutcomeHandler, updateCallbackOutcome]
  · intro r hr hid
    simp only [updateCallbackOutcomeHandler, updateCallbackOutcome,
      List.mem_map]
    exact ⟨r, hr, by rw [if_pos hid]⟩

/-- C6 amended witness: the overwrite applied to the concrete
already-completed row. -/
theorem c6_unconditional_completion_witness :
    completedRowW ∈ [completedRowW] ∧ completedRowW.id = 1 ∧
    { completedRowW with
       status := "completed"
       actualOutcome := some "no_answer"
       retellCallId := (none : Option String)
       completedAt := some 5 } ∈
      (updateCallbackOutcomeHandler [completedRowW] 1 "no_answer" none 5).2 :=
  ⟨List.mem_singleton.mpr rfl, rfl,
   (c6_unconditional_completion [completedRowW] 1 "no_answer" none 5).2.2
     completedRowW (List.mem_singleton.mpr rfl) rfl⟩

/-- C10: every outcome recorded by the Retell call_ended webhook is one of
no_answer, booked, dead and follow_up; an absent summary gives no_answer; a
nonempty summary matching none of the keyword groups gives follow_up; and no
recorded outcome except no_answer belongs to the retry-eligible set or to the
outcome taxonomy of the spec. -/
theorem c10_webhook_outcome_classification (summary : Option String) :
    classifyOutcome summary ∈ ["no_answer", "booked", "dead", "follow_up"] ∧
    classifyOutcome none = "no_answer" ∧
    (∀ s : String, s ≠ "" →
      containsSub (lowerStr s) "appointment" = false →
      containsSub (lowerStr s) "scheduled" = false →
      containsSub (lowerStr s) "booked" = false →
      containsSub (lowerStr s) "not interested" = false →
      containsSub (lowerStr s) "no thank you" = false →
      containsSub (lowerStr s) "call back" = false →
      containsSub (lowerStr s) "later" = false →
      classifyOutcome (some s) = "follow_up") ∧
    (classifyOutcome summary ≠ "no_answer" →
      classifyOutcome summary ∉ retryEligible ∧
      classifyOutcome summary ∉ outcomeTaxonomyKinds) := by
  have hmem : classifyOutcome summary ∈
      ["no_answer", "booked", "dead", "follow_up"] := by
    cases summary with
    | none => simp [classifyOutcome]
    | some s =>
      simp only [classifyOutcome]
      split_ifs <;> simp
  refine ⟨hmem, rfl, ?_, ?_⟩
  · intro s hne h1 h2 h3 h4 h5 h6 h7
    simp [classifyOutcome, hne, h1, h2, h3, h4, h5, h6, h7]
  · intro hna
    simp only [List.mem_cons, List.not_mem_nil, or_false] at hmem
    rcases hmem with h | h | h | h
    · exact absurd h hna
    · rw [h]
      exact ⟨by decide, by decide⟩
    · rw [h]
      exact ⟨by decide, by decide⟩
    · rw [h]
      exact ⟨by decide, by decide⟩

/-- C10 witness: a summary with no keyword hit classifies as follow_up, which
is neither retry-eligible nor a taxonomy kind. -/
theorem c10_webhook_outcome_classification_witness :
    ("hello" : String) ≠ "" ∧
    classifyOutcome (some "hello") = "follow_up" ∧
    classifyOutcome (some "hello") ∉ retryEligible :=
  ⟨by decide,
   (c10_webhook_outcome_classification (some "hello")).2.2.1 "hello"
     (by decide)
     (by with_unfolding_all rfl) (by with_unfolding_all rfl)
     (by with_unfolding_all rfl) (by with_unfolding_all rfl)
     (by with_unfolding_all rfl) (by with_unfolding_all rfl)
     (by with_unfolding_all rfl),
   ((c10_webhook_outcome_classification (some "hello")).2.2.2
     (by with_unfolding_all decide)).1⟩
